import Mathlib

/-
Verification development for the CGGD software rasterization pipeline
(src/src/renderer/rasterizer/rasterizer_renderer.cpp).

Modelling conventions:
 - float scalars are modelled as exact rationals; float casts to unsigned
   char are modelled by flooring and reducing modulo 256 (in-range values
   are unaffected).
 - std::random_device is modelled as an arbitrary stream of naturals
   (a function Nat -> Nat read at increasing positions), std::mt19937 as a
   deterministic family of streams indexed by the seed, and std::sqrt as a
   function parameter sq : Rat -> Rat supplied by the environment.
 - the classes cg::resource, cg::renderer::rasterizer, the cg color records
   and the linalg matrix operations are not under src; they are modelled
   from the spec (sections 3, 4.1, 4.2) as noted on each definition.
 - shared_ptr aliasing between the frame controller's render_target pointer
   and the buffer bound inside the rasterizer is modelled by storing the
   buffer once, inside the rasterizer state.
-/

namespace CGGD

/-- Error kinds of spec section 7. -/
inductive Err where
  | allocationError
  | dimensionMismatch
  | outOfBounds
  | indexOutOfRange
  | invalidTopology
  | notReady
  deriving DecidableEq

/-- Engine-level operations performed by render, recorded as a trace.
clear_depth is the separate explicit depth-clear call the spec mentions;
it has a constructor so that its absence from the trace can be stated. -/
inductive event where
  | clear_rt
  | clear_depth
  | set_vb (i : Nat)
  | set_ib (i : Nat)
  | draw_call (i : Nat) (count : Nat)
  | save
  deriving DecidableEq

/-- Left fold of a fallible step over a list, propagating the first error. -/
def foldE {α β : Type} (f : β → α → Except Err β) : List α → β → Except Err β
  | [], b => .ok b
  | a :: l, b =>
    match f b a with
    | .ok b2 => foldE f l b2
    | .error e => .error e

/-- Modelled from the spec: Buffer2D of section 3/4.1 — the class
cg::resource of the repository is not under src. A contiguous
width * height element store addressed row-major by (x, y). -/
structure resource (T : Type) where
  width : Nat
  height : Nat
  data : List T
  deriving DecidableEq

/-- Modelled from the spec: Buffer2D creation, section 4.1 — fails with
AllocationError if dimensions are non-positive. Storage is T-default
initialized. -/
def resource.create (T : Type) (w h : Nat) (d : T) : Except Err (resource T) :=
  if w = 0 ∨ h = 0 then .error .allocationError
  else .ok ⟨w, h, List.replicate (w * h) d⟩

/-- Modelled from the spec: item(x, y) read access, section 4.1 — fails
with OutOfBounds if x >= width or y >= height. -/
def resource.item {T : Type} [Inhabited T] (b : resource T) (x y : Nat) : Except Err T :=
  if x < b.width ∧ y < b.height then .ok (b.data.getD (y * b.width + x) default)
  else .error .outOfBounds

/-- Modelled from the spec: assignment through the mutable reference
returned by item(x, y), section 4.1 — same bounds check as item. -/
def resource.set_item {T : Type} (b : resource T) (x y : Nat) (v : T) :
    Except Err (resource T) :=
  if x < b.width ∧ y < b.height then
    .ok { b with data := b.data.set (y * b.width + x) v }
  else .error .outOfBounds

/-- Modelled from the spec: clear(value), section 4.1 — overwrites every
element. -/
def resource.clear {T : Type} (b : resource T) (v : T) : resource T :=
  { b with data := List.replicate (b.width * b.height) v }

/-- The record cg::unsigned_color: three 8-bit channels, modelled as
naturals; the cg color header is not under src, the channel layout is the
3-channel color of spec section 6. -/
structure unsigned_color where
  r : Nat
  g : Nat
  b : Nat
  deriving DecidableEq

instance : Inhabited unsigned_color := ⟨⟨0, 0, 0⟩⟩

/-- Saturating additive blend of one channel, exactly the integer
expression min(255, existing + added) of render lines 115-117 and 164-166. -/
def blend_channel (e a : Nat) : Nat := min 255 (e + a)

/-- Saturating additive blend of a whole color, as written in the star-glow
blend (lines 114-118) and the nebula blend (lines 163-167). -/
def blend_color (e a : unsigned_color) : unsigned_color :=
  ⟨blend_channel e.r a.r, blend_channel e.g a.g, blend_channel e.b a.b⟩

/-- Minimum of two rationals by direct comparison. -/
def qmin (a c : ℚ) : ℚ := if a ≤ c then a else c

/-- Maximum of two rationals by direct comparison. -/
def qmax (a c : ℚ) : ℚ := if a ≤ c then c else a

/-- Modelled from the spec: 3-component float vector (shading attribute),
floats as exact rationals; the math header is not under src. -/
structure float3 where
  x : ℚ
  y : ℚ
  z : ℚ
  deriving DecidableEq

/-- Modelled from the spec: 4-component homogeneous position (glossary,
clip space). -/
structure float4 where
  x : ℚ
  y : ℚ
  z : ℚ
  w : ℚ
  deriving DecidableEq

/-- Modelled from the spec: 4x4 transform matrix (section 1 and 6), stored
as four rows. -/
structure float4x4 where
  r0 : float4
  r1 : float4
  r2 : float4
  r3 : float4
  deriving DecidableEq

/-- Dot product of two 4-vectors. -/
def dot4 (a bv : float4) : ℚ := a.x * bv.x + a.y * bv.y + a.z * bv.z + a.w * bv.w

/-- Modelled from the spec: matrix applied to a column vector, as the
two-argument linalg mul used at render line 42. -/
def mulVec (m : float4x4) (v : float4) : float4 :=
  ⟨dot4 m.r0 v, dot4 m.r1 v, dot4 m.r2 v, dot4 m.r3 v⟩

/-- Column k of a matrix, as a 4-vector. -/
def col (m : float4x4) (k : Fin 4) : float4 :=
  match k with
  | 0 => ⟨m.r0.x, m.r1.x, m.r2.x, m.r3.x⟩
  | 1 => ⟨m.r0.y, m.r1.y, m.r2.y, m.r3.y⟩
  | 2 => ⟨m.r0.z, m.r1.z, m.r2.z, m.r3.z⟩
  | 3 => ⟨m.r0.w, m.r1.w, m.r2.w, m.r3.w⟩

/-- Modelled from the spec: matrix-matrix product; the three-argument
linalg mul at render lines 34-38 chains this left to right. -/
def matMul (a bm : float4x4) : float4x4 :=
  ⟨⟨dot4 a.r0 (col bm 0), dot4 a.r0 (col bm 1), dot4 a.r0 (col bm 2), dot4 a.r0 (col bm 3)⟩,
   ⟨dot4 a.r1 (col bm 0), dot4 a.r1 (col bm 1), dot4 a.r1 (col bm 2), dot4 a.r1 (col bm 3)⟩,
   ⟨dot4 a.r2 (col bm 0), dot4 a.r2 (col bm 1), dot4 a.r2 (col bm 2), dot4 a.r2 (col bm 3)⟩,
   ⟨dot4 a.r3 (col bm 0), dot4 a.r3 (col bm 1), dot4 a.r3 (col bm 2), dot4 a.r3 (col bm 3)⟩⟩

/-- Identity 4x4 matrix. -/
def id4 : float4x4 :=
  ⟨⟨1, 0, 0, 0⟩, ⟨0, 1, 0, 0⟩, ⟨0, 0, 1, 0⟩, ⟨0, 0, 0, 1⟩⟩

/-- The record cg::vertex. The struct is not under src; modelled from spec
section 3: a position field plus shading attributes, of which the bound
pixel shader reads only the ambient color. -/
structure vertex where
  x : ℚ
  y : ℚ
  z : ℚ
  ambient : float3
  deriving DecidableEq

/-- The record cg::color: a linear (float-channel) color. The header is
not under src; modelled from the spec pixel-stage contract of 4.2. -/
structure color where
  r : ℚ
  g : ℚ
  b : ℚ
  deriving DecidableEq

/-- The constructor cg::color::from_float3 used by the pixel shader at
render line 48: packs the three components of a float3 into a color. -/
def color.from_float3 (v : float3) : color := ⟨v.x, v.y, v.z⟩

/-- Modelled from the spec: conversion of a linear color channel to an
8-bit channel when the engine writes a pixel (clamp to [0,1], scale by
255, truncate). -/
def to_byte (q : ℚ) : Nat := (Int.toNat ⌊255 * qmax 0 (qmin 1 q)⌋) % 256

/-- Modelled from the spec: the 3-channel pixel written to the color
buffer from a pixel-stage color (section 4.2 step 9 and section 6). -/
def unsigned_color.from_color (c : color) : unsigned_color :=
  ⟨to_byte c.r, to_byte c.g, to_byte c.b⟩

/-- Model of a C++ cast of a float expression to unsigned char, used by
the background passes: truncate and reduce modulo 256 (all values actually
cast in render are already in range). -/
def cpp_to_byte (q : ℚ) : Nat := (Int.toNat ⌊q⌋) % 256

/-- The rasterizer engine state: cg::renderer::rasterizer. The class is
not under src; modelled from spec section 4.2: a viewport, the bound
render target and depth buffer, optional geometry bindings, and the two
shader slots. The render target and depth buffer fields hold the bound
buffers; before set_render_target they hold an empty placeholder, and in
this program init always binds them before any draw. -/
structure rasterizer where
  viewport_width : Nat
  viewport_height : Nat
  render_target : resource unsigned_color
  depth_buffer : resource ℚ
  vertex_buffer : Option (List vertex)
  index_buffer : Option (List Nat)
  vertex_shader : float4 → vertex → float4 × vertex
  pixel_shader : vertex → ℚ → color

/-- The engine state right after construction at init line 16: nothing
bound, default shader slots. -/
def initial_rasterizer : rasterizer :=
  { viewport_width := 0
    viewport_height := 0
    render_target := ⟨0, 0, []⟩
    depth_buffer := ⟨0, 0, []⟩
    vertex_buffer := none
    index_buffer := none
    vertex_shader := fun p d => (p, d)
    pixel_shader := fun _ _ => ⟨0, 0, 0⟩ }

/-- Modelled from the spec: set_viewport of section 4.2. -/
def set_viewport (r : rasterizer) (w h : Nat) : rasterizer :=
  { r with viewport_width := w, viewport_height := h }

/-- Modelled from the spec: set_render_target of section 4.2 — binds both
output buffers, failing with DimensionMismatch unless both match the
current viewport. -/
def set_render_target (r : rasterizer) (rt : resource unsigned_color)
    (db : resource ℚ) : Except Err rasterizer :=
  if rt.width = r.viewport_width ∧ rt.height = r.viewport_height ∧
      db.width = r.viewport_width ∧ db.height = r.viewport_height then
    .ok { r with render_target := rt, depth_buffer := db }
  else .error .dimensionMismatch

/-- Modelled from the spec: set_vertex_buffer of section 4.2. -/
def set_vertex_buffer (r : rasterizer) (vb : List vertex) : rasterizer :=
  { r with vertex_buffer := some vb }

/-- Modelled from the spec: set_index_buffer of section 4.2. -/
def set_index_buffer (r : rasterizer) (ib : List Nat) : rasterizer :=
  { r with index_buffer := some ib }

/-- Modelled from the spec: clear_render_target of section 4.2 — fills the
color buffer and does not touch the depth buffer. -/
def clear_render_target (r : rasterizer) (c : unsigned_color) : rasterizer :=
  { r with render_target := r.render_target.clear c }

/-- Inputs of the renderer: the settings, camera and model collaborators
(out of scope in the spec, section 6); their accessors used by init and
render are modelled as record fields. -/
structure config where
  width : Nat
  height : Nat
  projection : float4x4
  view : float4x4
  world : float4x4
  vertex_buffers : List (List vertex)
  index_buffers : List (List Nat)

/-- The function cg::renderer::rasterization_renderer::init
(rasterizer_renderer.cpp lines 9-29): create the rasterizer, set the
viewport to the settings resolution, create the render target and the
depth buffer at that resolution, and bind them. -/
def init (cfg : config) : Except Err rasterizer := do
  let r1 := set_viewport initial_rasterizer cfg.width cfg.height
  let rt ← resource.create unsigned_color cfg.width cfg.height ⟨0, 0, 0⟩
  let db ← resource.create ℚ cfg.width cfg.height 0
  set_render_target r1 rt db

/-- A pseudo-random source: a stream of naturals read at increasing
positions. std::random_device is one such stream supplied by the
environment; std::mt19937 seeded with s is the stream mt s for the
environment's generator family mt. -/
structure rng where
  seq : Nat → Nat
  pos : Nat

/-- Read one value and advance. -/
def rng.next (g : rng) : Nat × rng := (g.seq g.pos, { g with pos := g.pos + 1 })

/-- Model of uniform_int_distribution(0, m) applied to a generator: one
draw, reduced into the inclusive range. -/
def unif_nat (g : rng) (m : Nat) : Nat × rng :=
  let p := g.next
  (p.1 % (m + 1), p.2)

/-- Model of uniform_real_distribution(a, b) applied to a generator: one
draw mapped affinely into the range with granularity 1/1000. -/
def unif_real (g : rng) (a bq : ℚ) : ℚ × rng :=
  let p := g.next
  (a + (bq - a) * ((p.1 % 1000 : Nat) : ℚ) / 1000, p.2)

/-- Write one pixel of the render target through the frame controller's
shared pointer (render lines 84, 114, 163): same buffer as the one bound
in the rasterizer. -/
def write_target (r : rasterizer) (x y : Nat) (c : unsigned_color) :
    Except Err rasterizer := do
  let t ← r.render_target.set_item x y c
  .ok { r with render_target := t }

/-- Read one pixel of the render target through the shared pointer
(render lines 113, 162). -/
def read_target (r : rasterizer) (x y : Nat) : Except Err unsigned_color :=
  r.render_target.item x y

/-- The glow-halo offsets -star_size..star_size of render lines 90-91. -/
def offsets (sz : Nat) : List Int :=
  (List.range (2 * sz + 1)).map (fun k => (k : Int) - (sz : Int))

/-- One glow pixel of the star halo, render lines 92-119: skip the
center, bounds-check the neighbor, then additively blend the glow color. -/
def glow_pixel (sq : ℚ → ℚ) (w h : Nat) (xv yv : Nat) (bq : ℚ) (sz : Nat)
    (dx dy : Int) (r : rasterizer) : Except Err rasterizer :=
  if dx = 0 ∧ dy = 0 then .ok r
  else
    let nx : Int := (xv : Int) + dx
    let ny : Int := (yv : Int) + dy
    if 0 ≤ nx ∧ nx < (w : Int) ∧ 0 ≤ ny ∧ ny < (h : Int) then do
      let dist := sq ((dx * dx + dy * dy : Int) : ℚ)
      let gi := bq * (1 - dist / ((sz : ℚ) + 1))
      let glow : unsigned_color :=
        ⟨cpp_to_byte (80 * gi), cpp_to_byte (80 * gi), cpp_to_byte (75 * gi)⟩
      let ex ← read_target r nx.toNat ny.toNat
      write_target r nx.toNat ny.toNat (blend_color ex glow)
    else .ok r

/-- The double glow loop of render lines 90-121. -/
def glow_loop (sq : ℚ → ℚ) (w h : Nat) (xv yv : Nat) (bq : ℚ) (sz : Nat)
    (r : rasterizer) : Except Err rasterizer :=
  foldE
    (fun r2 dx =>
      foldE (fun r3 dy => glow_pixel sq w h xv yv bq sz dx dy r3) (offsets sz) r2)
    (offsets sz) r

/-- One star of the starfield, render lines 68-123: draw position,
brightness and size, write the bounds-guarded central pixel, then add the
glow halo for bright stars of positive size. -/
def star_step (sq : ℚ → ℚ) (w h : Nat) (p : rng × rasterizer) (_i : Nat) :
    Except Err (rng × rasterizer) := do
  let (xv, g1) := unif_nat p.1 (w - 1)
  let (yv, g2) := unif_nat g1 (h - 1)
  let (bq, g3) := unif_real g2 (2/5) 1
  let (sz, g4) := unif_nat g3 2
  let star : unsigned_color :=
    ⟨cpp_to_byte (255 * bq), cpp_to_byte (255 * bq), cpp_to_byte (255 * bq * (19/20))⟩
  let r1 ←
    if xv < w ∧ yv < h then write_target p.2 xv yv star
    else .ok p.2
  if 7/10 < bq ∧ 0 < sz then do
    let r2 ← glow_loop sq w h xv yv bq sz r1
    .ok (g4, r2)
  else .ok (g4, r1)

/-- The starfield pass, render lines 63-123: one star per 800 pixels of
the settings resolution. -/
def starfield (sq : ℚ → ℚ) (w h : Nat) (g : rng) (r : rasterizer) :
    Except Err (rng × rasterizer) :=
  foldE (star_step sq w h) (List.range ((w * h) / 800)) (g, r)

/-- One nebula pixel, render lines 144-168: inside the radius, blend the
gradient-falloff nebula color additively into the background. -/
def nebula_pixel (sq : ℚ → ℚ) (cx cy radius : Nat) (ri gi bi : ℚ)
    (x y : Nat) (r : rasterizer) : Except Err rasterizer :=
  let dxq : ℚ := (x : ℚ) - (cx : ℚ)
  let dyq : ℚ := (y : ℚ) - (cy : ℚ)
  let dist := sq (dxq * dxq + dyq * dyq)
  if dist < (radius : ℚ) then do
    let intensity := (1 - dist / (radius : ℚ)) * (3/10)
    let nc : unsigned_color :=
      ⟨cpp_to_byte (ri * 255 * intensity), cpp_to_byte (gi * 255 * intensity),
        cpp_to_byte (bi * 255 * intensity)⟩
    let ex ← read_target r x y
    write_target r x y (blend_color ex nc)
  else .ok r

/-- One nebula cloud, render lines 130-171: draw center and colors from
the generator and the radius from the random device, then sweep every
pixel of the screen. -/
def nebula_step (sq : ℚ → ℚ) (w h : Nat) (p : rng × rng × rasterizer)
    (_n : Nat) : Except Err (rng × rng × rasterizer) := do
  let (cx, g1) := unif_nat p.2.1 (w - 1)
  let (cy, g2) := unif_nat g1 (h - 1)
  let (rv, rd1) := p.1.next
  let radius := 50 + rv % 100
  let (ri, g3) := unif_real g2 (1/5) (3/5)
  let (gi, g4) := unif_real g3 (1/5) (3/5)
  let (bi, g5) := unif_real g4 (1/5) (3/5)
  let r1 ←
    foldE
      (fun r2 y =>
        foldE (fun r3 x => nebula_pixel sq cx cy radius ri gi bi x y r3)
          (List.range w) r2)
      (List.range h) p.2.2
  .ok (rd1, g5, r1)

/-- The nebula pass, render lines 125-171: 3 to 5 clouds, the count drawn
directly from the random device. -/
def nebula_pass (sq : ℚ → ℚ) (w h nneb : Nat) (rd g : rng) (r : rasterizer) :
    Except Err (rng × rng × rasterizer) :=
  foldE (nebula_step sq w h) (List.range nneb) (rd, g, r)

/-- Both background passes, render lines 51-171 after the clear: the
starfield, then the nebula clouds (their count drawn from the random
device at line 128). -/
def background (sq : ℚ → ℚ) (w h : Nat) (rd g : rng) (r : rasterizer) :
    Except Err (rng × rng × rasterizer) := do
  let (g2, r1) ← starfield sq w h g r
  let (nv, rd2) := rd.next
  nebula_pass sq w h (3 + nv % 3) rd2 g2 r1

/-- Everything render does on the engine from the clear_render_target call
at line 53 up to the first draw call: clear the color buffer to the space
color, then run the two background passes. The random device has already
served the seed at position 0, so the stream continues at position 1. -/
def pre_draw (sq : ℚ → ℚ) (mt : Nat → Nat → Nat) (rd_seq : Nat → Nat)
    (cfg : config) (r : rasterizer) : Except Err (rng × rng × rasterizer) :=
  background sq cfg.width cfg.height ⟨rd_seq, 1⟩ ⟨mt (rd_seq 0), 0⟩
    (clear_render_target r ⟨5, 5, 20⟩)

/-- Modelled from the spec: edge function (glossary) — the signed
2D cross product deciding on which side of edge ab the point p lies. -/
def edge_fn (a bp p : ℚ × ℚ) : ℚ :=
  (bp.1 - a.1) * (p.2 - a.2) - (bp.2 - a.2) * (p.1 - a.1)

/-- Modelled from the spec: perspective division, section 4.2 step 3. -/
def ndc_of (c : float4) : ℚ × ℚ × ℚ := (c.x / c.w, c.y / c.w, c.z / c.w)

/-- Modelled from the spec: viewport transform, section 4.2 step 4 —
x maps [-1,1] to [0,width], y maps [-1,1] to [0,height] with the vertical
flip. -/
def to_screen (w h : Nat) (n : ℚ × ℚ × ℚ) : ℚ × ℚ :=
  ((n.1 + 1) / 2 * (w : ℚ), (1 - n.2.1) / 2 * (h : ℚ))

/-- Lower pixel bound of a bounding box edge, clamped at 0. -/
def lo_px (q : ℚ) : Nat := Int.toNat ⌊q⌋

/-- Upper pixel bound of a bounding box edge, clamped below the screen
limit. -/
def hi_px (limit : Nat) (q : ℚ) : Nat := min (limit - 1) (Int.toNat ⌈q⌉)

/-- The pixel columns (or rows) of a clamped bounding box; empty when the
screen has zero extent or the box lies beyond it. -/
def px_range (limit lo hi : Nat) : List Nat :=
  if limit = 0 then [] else (List.range (hi + 1 - lo)).map (fun k => lo + k)

/-- Modelled from the spec: perspective-correct interpolation of one
attribute (glossary): each value divided by its vertex w, interpolated,
then divided by the interpolated reciprocal w. -/
def interp1 (b0 b1 b2 w0 w1 w2 a0 a1 a2 : ℚ) : ℚ :=
  (b0 * a0 / w0 + b1 * a1 / w1 + b2 * a2 / w2) / (b0 / w0 + b1 / w1 + b2 / w2)

/-- Perspective-correct interpolation of the carried vertex attributes,
componentwise (section 4.2 step 8). -/
def interp_vertex (b0 b1 b2 w0 w1 w2 : ℚ) (a0 a1 a2 : vertex) : vertex :=
  ⟨interp1 b0 b1 b2 w0 w1 w2 a0.x a1.x a2.x,
   interp1 b0 b1 b2 w0 w1 w2 a0.y a1.y a2.y,
   interp1 b0 b1 b2 w0 w1 w2 a0.z a1.z a2.z,
   ⟨interp1 b0 b1 b2 w0 w1 w2 a0.ambient.x a1.ambient.x a2.ambient.x,
    interp1 b0 b1 b2 w0 w1 w2 a0.ambient.y a1.ambient.y a2.ambient.y,
    interp1 b0 b1 b2 w0 w1 w2 a0.ambient.z a1.ambient.z a2.ambient.z⟩⟩

/-- Modelled from the spec: one candidate pixel of a triangle, section 4.2
steps 6-9 — inside test by consistent edge-function signs, barycentric
weights, screen-linear depth, perspective-correct attributes, depth test,
then color and depth writes. -/
def pixel_step (s0 s1 s2 : ℚ × ℚ) (area w0 w1 w2 z0 z1 z2 : ℚ)
    (a0 a1 a2 : vertex) (r : rasterizer) (px py : Nat) :
    Except Err rasterizer :=
  let p : ℚ × ℚ := ((px : ℚ) + 1/2, (py : ℚ) + 1/2)
  let e0 := edge_fn s1 s2 p
  let e1 := edge_fn s2 s0 p
  let e2 := edge_fn s0 s1 p
  if (0 ≤ e0 ∧ 0 ≤ e1 ∧ 0 ≤ e2) ∨ (e0 ≤ 0 ∧ e1 ≤ 0 ∧ e2 ≤ 0) then do
    let b0 := e0 / area
    let b1 := e1 / area
    let b2 := e2 / area
    let z := b0 * z0 + b1 * z1 + b2 * z2
    let dcur ← r.depth_buffer.item px py
    if z < dcur then do
      let v := interp_vertex b0 b1 b2 w0 w1 w2 a0 a1 a2
      let c := r.pixel_shader v z
      let t ← r.render_target.set_item px py (unsigned_color.from_color c)
      let db ← r.depth_buffer.set_item px py z
      .ok { r with render_target := t, depth_buffer := db }
    else .ok r
  else .ok r

/-- Modelled from the spec: one triangle, section 4.2 steps 2-9 — vertex
stage, degenerate-w skip, projection to screen, zero-area skip, then the
bounding-box pixel loop. -/
def rasterize_triangle (r : rasterizer) (v0 v1 v2 : vertex) :
    Except Err rasterizer :=
  let p0 := r.vertex_shader ⟨v0.x, v0.y, v0.z, 1⟩ v0
  let p1 := r.vertex_shader ⟨v1.x, v1.y, v1.z, 1⟩ v1
  let p2 := r.vertex_shader ⟨v2.x, v2.y, v2.z, 1⟩ v2
  if p0.1.w ≤ 0 ∨ p1.1.w ≤ 0 ∨ p2.1.w ≤ 0 then .ok r
  else
    let n0 := ndc_of p0.1
    let n1 := ndc_of p1.1
    let n2 := ndc_of p2.1
    let w := r.viewport_width
    let h := r.viewport_height
    let s0 := to_screen w h n0
    let s1 := to_screen w h n1
    let s2 := to_screen w h n2
    let area := edge_fn s0 s1 s2
    if area = 0 then .ok r
    else
      let xs := px_range w (lo_px (qmin s0.1 (qmin s1.1 s2.1)))
        (hi_px w (qmax s0.1 (qmax s1.1 s2.1)))
      let ys := px_range h (lo_px (qmin s0.2 (qmin s1.2 s2.2)))
        (hi_px h (qmax s0.2 (qmax s1.2 s2.2)))
      foldE
        (fun r2 py =>
          foldE
            (fun r3 px =>
              pixel_step s0 s1 s2 area p0.1.w p1.1.w p2.1.w n0.2.2 n1.2.2
                n2.2.2 p0.2 p1.2 p2.2 r3 px py)
            xs r2)
        ys r

/-- Fetch of one topology index; reading past the bound index buffer is
surfaced as IndexOutOfRange. -/
def get_idx (l : List Nat) (i : Nat) : Except Err Nat :=
  match l.get? i with
  | some v => .ok v
  | none => .error .indexOutOfRange

/-- Modelled from the spec: vertex fetch of section 4.2 step 1 — fails
with IndexOutOfRange if the index exceeds the vertex buffer size. -/
def get_vertex (l : List vertex) (i : Nat) : Except Err vertex :=
  match l.get? i with
  | some v => .ok v
  | none => .error .indexOutOfRange

/-- One triangle of a draw call: fetch three indices and the referenced
vertices, then rasterize. -/
def process_triangle (vb : List vertex) (ib : List Nat) (r : rasterizer)
    (pos : Nat) : Except Err rasterizer := do
  let i0 ← get_idx ib pos
  let i1 ← get_idx ib (pos + 1)
  let i2 ← get_idx ib (pos + 2)
  let v0 ← get_vertex vb i0
  let v1 ← get_vertex vb i1
  let v2 ← get_vertex vb i2
  rasterize_triangle r v0 v1 v2

/-- Modelled from the spec: draw(vertex_count, start_vertex) of section
4.2 — NotReady if geometry is unbound, InvalidTopology if the count is
not a multiple of 3, otherwise the indices are processed three at a time
as independent triangles. -/
def draw (r : rasterizer) (vertex_count start_vertex : Nat) :
    Except Err rasterizer :=
  match r.vertex_buffer, r.index_buffer with
  | some vb, some ib =>
    if vertex_count % 3 ≠ 0 then .error .invalidTopology
    else
      foldE (fun r2 t => process_triangle vb ib r2 (start_vertex + 3 * t))
        (List.range (vertex_count / 3)) r
  | _, _ => .error .notReady

/-- The combined transformation matrix of render lines 34-38:
mul(projection, view, world) chains the matrix product left to right. -/
def combined_matrix (cfg : config) : float4x4 :=
  matMul (matMul cfg.projection cfg.view) cfg.world

/-- The shader bindings of render lines 40-49: the vertex shader applies
the combined matrix to the position and carries the vertex record; the
pixel shader returns the ambient color of the carried record. -/
def bind_shaders (cfg : config) (r : rasterizer) : rasterizer :=
  { r with
    vertex_shader := fun v data => (mulVec (combined_matrix cfg) v, data)
    pixel_shader := fun data _z => color.from_float3 data.ambient }

/-- One shape of the model loop, render lines 175-183: bind the shape's
vertex and index buffers, then draw its whole index count from vertex 0. -/
def shape_step (cfg : config) (p : rasterizer × List event) (i : Nat) :
    Except Err (rasterizer × List event) := do
  let r1 := set_vertex_buffer p.1 (cfg.vertex_buffers.getD i [])
  let r2 := set_index_buffer r1 (cfg.index_buffers.getD i [])
  let cnt := (cfg.index_buffers.getD i []).length
  let r3 ← draw r2 cnt 0
  .ok (r3, p.2 ++ [event.set_vb i, event.set_ib i, event.draw_call i cnt])

/-- Outcome of one render call: the final engine state, the color buffer
handed to save_resource at line 186, and the trace of engine operations. -/
structure render_result where
  state : rasterizer
  saved : resource unsigned_color
  trace : List event

/-- The function cg::renderer::rasterization_renderer::render
(rasterizer_renderer.cpp lines 31-187): bind the shaders, clear the color
buffer and paint the starfield and nebula background, draw every mesh
shape of the model, and persist the color buffer. -/
def render (sq : ℚ → ℚ) (mt : Nat → Nat → Nat) (rd_seq : Nat → Nat)
    (cfg : config) (r0 : rasterizer) : Except Err render_result := do
  let rA := bind_shaders cfg r0
  let (_, _, rD) ← pre_draw sq mt rd_seq cfg rA
  let (rE, evs) ←
    foldE (shape_step cfg) (List.range cfg.index_buffers.length) (rD, [])
  .ok ⟨rE, rE.render_target, event.clear_rt :: (evs ++ [event.save])⟩

/-- Whether a fallible computation succeeded. -/
def ok_b {α : Type} : Except Err α → Bool
  | .ok _ => true
  | .error _ => false

/-- The saved color buffer of a render outcome, if it succeeded. -/
def saved_of (e : Except Err render_result) : Option (resource unsigned_color) :=
  match e with
  | .ok res => some res.saved
  | .error _ => none

/-- The operation trace of a render outcome; empty if it failed. -/
def trace_of (e : Except Err render_result) : List event :=
  match e with
  | .ok res => res.trace
  | .error _ => []

/-- The engine state of a successful pre-draw phase, with a fallback for
the failure case. -/
def state_of (e : Except Err (rng × rng × rasterizer)) (dflt : rasterizer) :
    rasterizer :=
  match e with
  | .ok p => p.2.2
  | .error _ => dflt

/-- Whether an event is a draw call. -/
def is_draw : event → Bool
  | .draw_call _ _ => true
  | _ => false

/-- The part of a trace that precedes the first draw call. -/
def before_first_draw (t : List event) : List event :=
  t.takeWhile (fun e => !(is_draw e))

/-- A concrete environment model of std::sqrt, exact on perfect squares;
used to instantiate the sq parameter on concrete runs. -/
def sqrt0 (q : ℚ) : ℚ :=
  ((((List.range (q.num.toNat + 1)).filter (fun k => k * k ≤ q.num.toNat)).length - 1 : Nat) : ℚ)

/-- A concrete random-device stream: constantly zero. -/
def rd0 (_k : Nat) : Nat := 0

/-- A second concrete random-device stream, differing from rd0 only at
position 1 (the position feeding the nebula count). -/
def rd1 (k : Nat) : Nat := if k = 1 then 1 else 0

/-- A concrete generator family: every seed gives the zero stream. -/
def mt0 (_seed _k : Nat) : Nat := 0

/-- A concrete settings record for init: a 4 by 3 screen, no shapes. -/
def cfg_small : config := ⟨4, 3, id4, id4, id4, [], []⟩

/-- A concrete input with an empty model on an 8 by 5 screen: small
enough that the starfield has zero stars, so only the nebula pass touches
the background. -/
def cfg_empty : config := ⟨8, 5, id4, id4, id4, [], []⟩

/-- A concrete triangle spanning the lower-left half of the screen in
normalized device coordinates. -/
def sample_vb : List vertex :=
  [⟨-1, -1, 0, ⟨1, 0, 0⟩⟩, ⟨1, -1, 0, ⟨1, 0, 0⟩⟩, ⟨-1, 1, 0, ⟨1, 0, 0⟩⟩]

/-- A concrete input with one mesh shape of one triangle on an 8 by 5
screen, identity camera and world matrices. -/
def cfg_one : config := ⟨8, 5, id4, id4, id4, [sample_vb], [[0, 1, 2]]⟩

/-- The engine state init produces for a configuration, with a fallback
for the failure case. -/
def r_of (cfg : config) : rasterizer :=
  match init cfg with
  | .ok r => r
  | .error _ => initial_rasterizer

/-- A ready engine state: geometry bound, as inside the shape loop of
render. -/
def ready_r : rasterizer :=
  { initial_rasterizer with
    vertex_buffer := some sample_vb
    index_buffer := some [0, 1, 2] }

/-- Every engine-state component except the color buffer: the depth
buffer, the viewport, the geometry bindings and the shader slots. -/
structure nc_state where
  depth : resource ℚ
  vw : Nat
  vh : Nat
  vb : Option (List vertex)
  ib : Option (List Nat)
  vs : float4 → vertex → float4 × vertex
  ps : vertex → ℚ → color

/-- Projection of the engine state onto everything but the color buffer. -/
def nc_view (r : rasterizer) : nc_state :=
  ⟨r.depth_buffer, r.viewport_width, r.viewport_height, r.vertex_buffer,
    r.index_buffer, r.vertex_shader, r.pixel_shader⟩

/-- Invariant carried through the background passes: the render target
keeps the settings dimensions and every non-color component keeps its
initial value. -/
def bgP (base : nc_state) (w h : Nat) (r : rasterizer) : Prop :=
  r.render_target.width = w ∧ r.render_target.height = h ∧ nc_view r = base

/-- The spec's claim, stated as written: before the first draw call of a
render execution the engine has both cleared the render target and
cleared the depth buffer by a separate explicit call. -/
def claimed_clear_both_before_draw (sq : ℚ → ℚ) (mt : Nat → Nat → Nat)
    (rd_seq : Nat → Nat) (cfg : config) (r0 : rasterizer) : Prop :=
  event.clear_rt ∈ before_first_draw (trace_of (render sq mt rd_seq cfg r0)) ∧
  event.clear_depth ∈ before_first_draw (trace_of (render sq mt rd_seq cfg r0))

/-- The spec's claim, stated as written: for a fixed input (model, camera,
settings, engine state) any two executions of render — that is, any two
random-device streams, everything else being the environment's fixed
sqrt and generator family — produce the identical final color buffer. -/
def claimed_render_deterministic (sq : ℚ → ℚ) (mt : Nat → Nat → Nat)
    (cfg : config) (r0 : rasterizer) : Prop :=
  ∀ rda rdb : Nat → Nat,
    saved_of (render sq mt rda cfg r0) = saved_of (render sq mt rdb cfg r0)

attribute [local semireducible] Rat.add Rat.mul Rat.sub Rat.inv Rat.ofScientific

theorem foldE_ok_inv {α β : Type} (P : β → Prop) (f : β → α → Except Err β)
    (l : List α) (b : β) (hb : P b)
    (hf : ∀ b2 a, a ∈ l → P b2 → ∃ b3, f b2 a = .ok b3 ∧ P b3) :
    ∃ b3, foldE f l b = .ok b3 ∧ P b3 := by
  induction l generalizing b with
  | nil => exact ⟨b, rfl, hb⟩
  | cons a l ih =>
    obtain ⟨b2, hstep, hP2⟩ := hf b a (List.mem_cons_self a l) hb
    have := ih b2 hP2 (fun b3 a2 ha2 h3 => hf b3 a2 (List.mem_cons_of_mem a ha2) h3)
    simpa [foldE, hstep] using this

theorem foldE_proj {α β γ : Type} (proj : β → γ) (f : β → α → Except Err β)
    (l : List α)
    (hf : ∀ b a b2, a ∈ l → f b a = .ok b2 → proj b2 = proj b) :
    ∀ b b2, foldE f l b = .ok b2 → proj b2 = proj b := by
  induction l with
  | nil =>
    intro b b2 h
    simp only [foldE] at h
    cases h
    rfl
  | cons a l ih =>
    intro b b2 h
    simp only [foldE] at h
    cases hstep : f b a with
    | ok bm =>
      rw [hstep] at h
      have h1 := hf b a bm (List.mem_cons_self a l) hstep
      have h2 := ih (fun b3 a2 b4 ha2 he => hf b3 a2 b4 (List.mem_cons_of_mem a ha2) he) bm b2 h
      rw [h2, h1]
    | error e => rw [hstep] at h; cases h

theorem foldE_ne_err {α β : Type} (f : β → α → Except Err β) (l : List α)
    (E : Err) (hf : ∀ b a, f b a ≠ .error E) :
    ∀ b, foldE f l b ≠ .error E := by
  induction l with
  | nil => intro b h; simp [foldE] at h
  | cons a l ih =>
    intro b h
    simp only [foldE] at h
    cases hstep : f b a with
    | ok bm => rw [hstep] at h; exact ih bm h
    | error e =>
      rw [hstep] at h
      cases h
      exact hf b a hstep

theorem resource.set_item_ok {T : Type} (b : resource T) (x y : Nat) (v : T)
    (hx : x < b.width) (hy : y < b.height) :
    b.set_item x y v = .ok { b with data := b.data.set (y * b.width + x) v } := by
  simp [resource.set_item, hx, hy]

theorem resource.item_ok {T : Type} [Inhabited T] (b : resource T) (x y : Nat)
    (hx : x < b.width) (hy : y < b.height) :
    b.item x y = .ok (b.data.getD (y * b.width + x) default) := by
  simp [resource.item, hx, hy]

theorem resource.item_err {T : Type} [Inhabited T] (b : resource T) (x y : Nat)
    (e : Err) (h : b.item x y = .error e) : e = .outOfBounds := by
  unfold resource.item at h
  split at h
  · cases h
  · cases h; rfl

theorem resource.set_item_err {T : Type} (b : resource T) (x y : Nat) (v : T)
    (e : Err) (h : b.set_item x y v = .error e) : e = .outOfBounds := by
  unfold resource.set_item at h
  split at h
  · cases h
  · cases h; rfl

theorem except_bind_ne {α β : Type} (x : Except Err α) (f : α → Except Err β)
    (E : Err) (hx : x ≠ .error E) (hf : ∀ a, x = .ok a → f a ≠ .error E) :
    (x >>= f) ≠ .error E := by
  cases x with
  | ok a => simpa [Bind.bind, Except.bind] using hf a rfl
  | error e => simpa [Bind.bind, Except.bind] using hx

/-- C3: the vertex-stage function bound by render is pure with respect to
engine state — binding it leaves every engine buffer and binding
unchanged, and the function itself is a mathematical map of its two
arguments — and for every input position v it returns the clip-space
position M times v, where M is the single combined matrix
projection times view times world, together with the carried vertex
record. -/
theorem vertex_stage_pure_transform (cfg : config) (r : rasterizer)
    (v : float4) (d : vertex) :
    (bind_shaders cfg r).vertex_shader v d =
      (mulVec (matMul (matMul cfg.projection cfg.view) cfg.world) v, d) ∧
    (bind_shaders cfg r).render_target = r.render_target ∧
    (bind_shaders cfg r).depth_buffer = r.depth_buffer ∧
    (bind_shaders cfg r).vertex_buffer = r.vertex_buffer ∧
    (bind_shaders cfg r).index_buffer = r.index_buffer ∧
    (bind_shaders cfg r).viewport_width = r.viewport_width ∧
    (bind_shaders cfg r).viewport_height = r.viewport_height :=
  ⟨rfl, rfl, rfl, rfl, rfl, rfl, rfl⟩

/-- C9: the pixel-stage function bound by render is a noninterference
point for depth — for every carried vertex record and any two depth
values it returns the same color, namely the color derived from the
record's ambient attribute. -/
theorem pixel_stage_depth_noninterference (cfg : config) (r : rasterizer)
    (d : vertex) (z1 z2 : ℚ) :
    (bind_shaders cfg r).pixel_shader d z1 =
      (bind_shaders cfg r).pixel_shader d z2 ∧
    (bind_shaders cfg r).pixel_shader d z1 = color.from_float3 d.ambient :=
  ⟨rfl, rfl⟩

/-- C10: the additive blends of the star-glow and nebula passes are
saturating — each output channel equals min(255, existing + added) in
integer arithmetic, stays at most 255 (hence never wraps modulo 256), and
is at least the existing channel value. -/
theorem blend_saturating (e a : unsigned_color)
    (he : e.r ≤ 255 ∧ e.g ≤ 255 ∧ e.b ≤ 255) :
    blend_color e a =
      ⟨min 255 (e.r + a.r), min 255 (e.g + a.g), min 255 (e.b + a.b)⟩ ∧
    (blend_color e a).r ≤ 255 ∧ (blend_color e a).g ≤ 255 ∧
    (blend_color e a).b ≤ 255 ∧
    (blend_color e a).r % 256 = (blend_color e a).r ∧
    (blend_color e a).g % 256 = (blend_color e a).g ∧
    (blend_color e a).b % 256 = (blend_color e a).b ∧
    e.r ≤ (blend_color e a).r ∧ e.g ≤ (blend_color e a).g ∧
    e.b ≤ (blend_color e a).b := by
  obtain ⟨h1, h2, h3⟩ := he
  refine ⟨rfl, ?_, ?_, ?_, ?_, ?_, ?_, ?_, ?_, ?_⟩ <;>
    simp only [blend_color, blend_channel] <;> omega

/-- Witness for blend_saturating at concrete channel values. -/
theorem blend_saturating_witness :
    ((⟨200, 10, 0⟩ : unsigned_color).r ≤ 255 ∧
      (⟨200, 10, 0⟩ : unsigned_color).g ≤ 255 ∧
      (⟨200, 10, 0⟩ : unsigned_color).b ≤ 255) ∧
    (blend_color ⟨200, 10, 0⟩ ⟨100, 5, 7⟩ =
      ⟨min 255 (200 + 100), min 255 (10 + 5), min 255 (0 + 7)⟩ ∧
    (blend_color ⟨200, 10, 0⟩ ⟨100, 5, 7⟩).r ≤ 255 ∧
    (blend_color ⟨200, 10, 0⟩ ⟨100, 5, 7⟩).g ≤ 255 ∧
    (blend_color ⟨200, 10, 0⟩ ⟨100, 5, 7⟩).b ≤ 255 ∧
    (blend_color ⟨200, 10, 0⟩ ⟨100, 5, 7⟩).r % 256 =
      (blend_color ⟨200, 10, 0⟩ ⟨100, 5, 7⟩).r ∧
    (blend_color ⟨200, 10, 0⟩ ⟨100, 5, 7⟩).g % 256 =
      (blend_color ⟨200, 10, 0⟩ ⟨100, 5, 7⟩).g ∧
    (blend_color ⟨200, 10, 0⟩ ⟨100, 5, 7⟩).b % 256 =
      (blend_color ⟨200, 10, 0⟩ ⟨100, 5, 7⟩).b ∧
    (⟨200, 10, 0⟩ : unsigned_color).r ≤ (blend_color ⟨200, 10, 0⟩ ⟨100, 5, 7⟩).r ∧
    (⟨200, 10, 0⟩ : unsigned_color).g ≤ (blend_color ⟨200, 10, 0⟩ ⟨100, 5, 7⟩).g ∧
    (⟨200, 10, 0⟩ : unsigned_color).b ≤ (blend_color ⟨200, 10, 0⟩ ⟨100, 5, 7⟩).b) :=
  ⟨by decide, blend_saturating ⟨200, 10, 0⟩ ⟨100, 5, 7⟩ (by decide)⟩

/-- C4: after init completes the viewport invariant holds — viewport,
render target and depth buffer all have the settings dimensions, and the
set_render_target call in init does not fail with DimensionMismatch. -/
theorem init_viewport_invariant (cfg : config) (hw : 0 < cfg.width)
    (hh : 0 < cfg.height) :
    init cfg ≠ .error .dimensionMismatch ∧
    ∃ r, init cfg = .ok r ∧
      r.viewport_width = cfg.width ∧ r.viewport_height = cfg.height ∧
      r.render_target.width = cfg.width ∧ r.render_target.height = cfg.height ∧
      r.depth_buffer.width = cfg.width ∧ r.depth_buffer.height = cfg.height := by
  have hcond : ¬(cfg.width = 0 ∨ cfg.height = 0) := by omega
  have hok : init cfg = .ok
      { viewport_width := cfg.width
        viewport_height := cfg.height
        render_target := ⟨cfg.width, cfg.height, List.replicate (cfg.width * cfg.height) ⟨0, 0, 0⟩⟩
        depth_buffer := ⟨cfg.width, cfg.height, List.replicate (cfg.width * cfg.height) 0⟩
        vertex_buffer := none
        index_buffer := none
        vertex_shader := fun p d => (p, d)
        pixel_shader := fun _ _ => ⟨0, 0, 0⟩ } := by
    simp [init, resource.create, hcond, set_render_target, set_viewport,
      initial_rasterizer, Bind.bind, Except.bind]
  refine ⟨by simp [hok], _, hok, rfl, rfl, rfl, rfl, rfl, rfl⟩

/-- Witness for init_viewport_invariant at the concrete 4 by 3 settings. -/
theorem init_viewport_invariant_witness :
    0 < cfg_small.width ∧ 0 < cfg_small.height ∧
    (init cfg_small ≠ .error .dimensionMismatch ∧
      ∃ r, init cfg_small = .ok r ∧
        r.viewport_width = cfg_small.width ∧
        r.viewport_height = cfg_small.height ∧
        r.render_target.width = cfg_small.width ∧
        r.render_target.height = cfg_small.height ∧
        r.depth_buffer.width = cfg_small.width ∧
        r.depth_buffer.height = cfg_small.height) :=
  ⟨by decide, by decide,
    init_viewport_invariant cfg_small (by decide) (by decide)⟩

theorem get_idx_err (l : List Nat) (i : Nat) (e : Err)
    (h : get_idx l i = .error e) : e = .indexOutOfRange := by
  unfold get_idx at h
  cases hg : l.get? i with
  | some v => rw [hg] at h; cases h
  | none => rw [hg] at h; cases h; rfl

theorem get_vertex_err (l : List vertex) (i : Nat) (e : Err)
    (h : get_vertex l i = .error e) : e = .indexOutOfRange := by
  unfold get_vertex at h
  cases hg : l.get? i with
  | some v => rw [hg] at h; cases h
  | none => rw [hg] at h; cases h; rfl

theorem pixel_step_ne_invtop (s0 s1 s2 : ℚ × ℚ) (area w0 w1 w2 z0 z1 z2 : ℚ)
    (a0 a1 a2 : vertex) (r : rasterizer) (px py : Nat) :
    pixel_step s0 s1 s2 area w0 w1 w2 z0 z1 z2 a0 a1 a2 r px py ≠
      .error .invalidTopology := by
  unfold pixel_step
  dsimp only
  split
  · refine except_bind_ne _ _ _ ?_ ?_
    · intro h
      have := resource.item_err _ _ _ _ h
      simp at this
    · intro dcur _
      dsimp only
      split
      · refine except_bind_ne _ _ _ ?_ ?_
        · intro h
          have := resource.set_item_err _ _ _ _ _ h
          simp at this
        · intro t _
          refine except_bind_ne _ _ _ ?_ ?_
          · intro h
            have := resource.set_item_err _ _ _ _ _ h
            simp at this
          · intro db _
            simp
      · simp
  · simp

theorem rasterize_triangle_ne_invtop (r : rasterizer) (v0 v1 v2 : vertex) :
    rasterize_triangle r v0 v1 v2 ≠ .error .invalidTopology := by
  unfold rasterize_triangle
  dsimp only
  split
  · simp
  · split
    · simp
    · exact foldE_ne_err _ _ _
        (fun b2 py => foldE_ne_err _ _ _
          (fun b3 px => pixel_step_ne_invtop _ _ _ _ _ _ _ _ _ _ _ _ _ _ _ _) b2) r

theorem process_triangle_ne_invtop (vb : List vertex) (ib : List Nat)
    (r : rasterizer) (pos : Nat) :
    process_triangle vb ib r pos ≠ .error .invalidTopology := by
  unfold process_triangle
  refine except_bind_ne _ _ _ ?_ ?_
  · intro h; have := get_idx_err _ _ _ h; simp at this
  · intro i0 _
    refine except_bind_ne _ _ _ ?_ ?_
    · intro h; have := get_idx_err _ _ _ h; simp at this
    · intro i1 _
      refine except_bind_ne _ _ _ ?_ ?_
      · intro h; have := get_idx_err _ _ _ h; simp at this
      · intro i2 _
        refine except_bind_ne _ _ _ ?_ ?_
        · intro h; have := get_vertex_err _ _ _ h; simp at this
        · intro v0 _
          refine except_bind_ne _ _ _ ?_ ?_
          · intro h; have := get_vertex_err _ _ _ h; simp at this
          · intro v1 _
            refine except_bind_ne _ _ _ ?_ ?_
            · intro h; have := get_vertex_err _ _ _ h; simp at this
            · intro v2 _
              exact rasterize_triangle_ne_invtop r v0 v1 v2

/-- C5: with geometry bound as render binds it, draw does not fail with
InvalidTopology when the vertex count is a multiple of 3 — in particular
for a shape whose bound index buffer satisfies the triangle-list
invariant, the draw call render issues (the index-buffer count, start
vertex 0) never fails that way — and conversely draw fails with
InvalidTopology whenever the count is not a multiple of 3. -/
theorem draw_topology (r : rasterizer) (vb : List vertex) (ib : List Nat)
    (hvb : r.vertex_buffer = some vb) (hib : r.index_buffer = some ib)
    (cnt : Nat) :
    (cnt % 3 ≠ 0 → draw r cnt 0 = .error .invalidTopology) ∧
    (cnt % 3 = 0 → draw r cnt 0 ≠ .error .invalidTopology) := by
  unfold draw
  rw [hvb, hib]
  dsimp only
  constructor
  · intro h
    simp [h]
  · intro h
    simp only [h]
    simp only [ne_eq, not_true_eq_false, if_false]
    exact foldE_ne_err _ _ _ (fun b t => process_triangle_ne_invtop _ _ _ _) r

/-- Witness for draw_topology at the concrete ready engine state and
count 3. -/
theorem draw_topology_witness :
    ready_r.vertex_buffer = some sample_vb ∧
    ready_r.index_buffer = some [0, 1, 2] ∧
    ((3 % 3 ≠ 0 → draw ready_r 3 0 = .error .invalidTopology) ∧
      (3 % 3 = 0 → draw ready_r 3 0 ≠ .error .invalidTopology)) :=
  ⟨rfl, rfl, draw_topology ready_r sample_vb [0, 1, 2] rfl rfl 3⟩

theorem resource.set_item_dims {T : Type} (b : resource T) (x y : Nat) (v : T)
    (b2 : resource T) (h : b.set_item x y v = .ok b2) :
    b2.width = b.width ∧ b2.height = b.height := by
  unfold resource.set_item at h
  split at h
  · cases h; exact ⟨rfl, rfl⟩
  · cases h

theorem write_target_ok (r : rasterizer) (x y : Nat) (c : unsigned_color)
    (hx : x < r.render_target.width) (hy : y < r.render_target.height) :
    ∃ r2, write_target r x y c = .ok r2 ∧
      r2.render_target.width = r.render_target.width ∧
      r2.render_target.height = r.render_target.height ∧
      nc_view r2 = nc_view r := by
  have hwt : write_target r x y c = .ok
      { r with render_target :=
        { r.render_target with
          data := r.render_target.data.set (y * r.render_target.width + x) c } } := by
    rw [write_target, resource.set_item_ok _ _ _ _ hx hy]
    simp [Bind.bind, Except.bind]
  exact ⟨_, hwt, rfl, rfl, rfl⟩

theorem glow_pixel_Q (base : nc_state) (sq : ℚ → ℚ) (w h xv yv : Nat)
    (bq : ℚ) (sz : Nat) (dx dy : Int) (r : rasterizer)
    (hQ : bgP base w h r) :
    ∃ r2, glow_pixel sq w h xv yv bq sz dx dy r = .ok r2 ∧ bgP base w h r2 := by
  obtain ⟨hw, hh, hnc⟩ := hQ
  unfold glow_pixel
  dsimp only
  split
  · exact ⟨r, rfl, hw, hh, hnc⟩
  · split
    · rename_i hg
      obtain ⟨h1, h2, h3, h4⟩ := hg
      have hxw : ((xv : Int) + dx).toNat < r.render_target.width := by omega
      have hyh : ((yv : Int) + dy).toNat < r.render_target.height := by omega
      unfold read_target
      rw [resource.item_ok r.render_target _ _ hxw hyh]
      obtain ⟨r2, hwr, p1, p2, p3⟩ :=
        write_target_ok r (((xv : Int) + dx).toNat) (((yv : Int) + dy).toNat)
          (blend_color (r.render_target.data.getD
            (((yv : Int) + dy).toNat * r.render_target.width +
              ((xv : Int) + dx).toNat) default)
            ⟨cpp_to_byte (80 * (bq * (1 - sq ((dx * dx + dy * dy : Int) : ℚ) / ((sz : ℚ) + 1)))),
             cpp_to_byte (80 * (bq * (1 - sq ((dx * dx + dy * dy : Int) : ℚ) / ((sz : ℚ) + 1)))),
             cpp_to_byte (75 * (bq * (1 - sq ((dx * dx + dy * dy : Int) : ℚ) / ((sz : ℚ) + 1))))⟩)
          hxw hyh
      refine ⟨r2, ?_, ?_, ?_, ?_⟩
      · simpa [Bind.bind, Except.bind] using hwr
      · rw [p1, hw]
      · rw [p2, hh]
      · rw [p3, hnc]
    · exact ⟨r, rfl, hw, hh, hnc⟩

theorem glow_loop_Q (base : nc_state) (sq : ℚ → ℚ) (w h xv yv : Nat)
    (bq : ℚ) (sz : Nat) (r : rasterizer) (hQ : bgP base w h r) :
    ∃ r2, glow_loop sq w h xv yv bq sz r = .ok r2 ∧ bgP base w h r2 := by
  unfold glow_loop
  refine foldE_ok_inv (bgP base w h) _ _ r hQ ?_
  intro r2 dx _ hQ2
  refine foldE_ok_inv (bgP base w h) _ _ r2 hQ2 ?_
  intro r3 dy _ hQ3
  exact glow_pixel_Q base sq w h xv yv bq sz dx dy r3 hQ3

theorem star_step_Q (base : nc_state) (sq : ℚ → ℚ) (w h : Nat)
    (p : rng × rasterizer) (i : Nat) (hQ : bgP base w h p.2) :
    ∃ p2, star_step sq w h p i = .ok p2 ∧ bgP base w h p2.2 := by
  obtain ⟨hw, hh, hnc⟩ := hQ
  unfold star_step unif_nat unif_real rng.next
  dsimp only
  split
  · rename_i hg
    obtain ⟨r1, hwr, q1, q2, q3⟩ :=
      write_target_ok p.2 _ _ _ (by rw [hw]; exact hg.1) (by rw [hh]; exact hg.2)
    rw [hwr]
    simp only [Bind.bind, Except.bind]
    split
    · obtain ⟨r2, hgl, hQ2⟩ := glow_loop_Q base sq w h _ _ _ _ r1
        ⟨by rw [q1, hw], by rw [q2, hh], by rw [q3, hnc]⟩
      rw [hgl]
      exact ⟨_, rfl, hQ2⟩
    · exact ⟨_, rfl, by rw [q1, hw], by rw [q2, hh], by rw [q3, hnc]⟩
  · simp only [Bind.bind, Except.bind]
    split
    · obtain ⟨r2, hgl, hQ2⟩ := glow_loop_Q base sq w h _ _ _ _ p.2 ⟨hw, hh, hnc⟩
      rw [hgl]
      exact ⟨_, rfl, hQ2⟩
    · exact ⟨_, rfl, hw, hh, hnc⟩

theorem starfield_Q (base : nc_state) (sq : ℚ → ℚ) (w h : Nat) (g : rng)
    (r : rasterizer) (hQ : bgP base w h r) :
    ∃ p2, starfield sq w h g r = .ok p2 ∧ bgP base w h p2.2 := by
  unfold starfield
  have := foldE_ok_inv (fun p : rng × rasterizer => bgP base w h p.2)
    (star_step sq w h) (List.range (w * h / 800)) (g, r) hQ
    (fun p2 a _ h2 => star_step_Q base sq w h p2 a h2)
  exact this

theorem nebula_pixel_Q (base : nc_state) (sq : ℚ → ℚ) (w h cx cy radius : Nat)
    (ri gi bi : ℚ) (x y : Nat) (r : rasterizer) (hx : x < w) (hy : y < h)
    (hQ : bgP base w h r) :
    ∃ r2, nebula_pixel sq cx cy radius ri gi bi x y r = .ok r2 ∧
      bgP base w h r2 := by
  obtain ⟨hw, hh, hnc⟩ := hQ
  unfold nebula_pixel
  dsimp only
  split
  · have hxw : x < r.render_target.width := by omega
    have hyh : y < r.render_target.height := by omega
    unfold read_target
    rw [resource.item_ok r.render_target _ _ hxw hyh]
    obtain ⟨r2, hwr, p1, p2, p3⟩ :=
      write_target_ok r x y
        (blend_color (r.render_target.data.getD (y * r.render_target.width + x) default)
          ⟨cpp_to_byte (ri * 255 * ((1 - sq (((x : ℚ) - (cx : ℚ)) * ((x : ℚ) - (cx : ℚ)) +
              ((y : ℚ) - (cy : ℚ)) * ((y : ℚ) - (cy : ℚ))) / (radius : ℚ)) * (3/10))),
           cpp_to_byte (gi * 255 * ((1 - sq (((x : ℚ) - (cx : ℚ)) * ((x : ℚ) - (cx : ℚ)) +
              ((y : ℚ) - (cy : ℚ)) * ((y : ℚ) - (cy : ℚ))) / (radius : ℚ)) * (3/10))),
           cpp_to_byte (bi * 255 * ((1 - sq (((x : ℚ) - (cx : ℚ)) * ((x : ℚ) - (cx : ℚ)) +
              ((y : ℚ) - (cy : ℚ)) * ((y : ℚ) - (cy : ℚ))) / (radius : ℚ)) * (3/10)))⟩)
        hxw hyh
    refine ⟨r2, ?_, ?_, ?_, ?_⟩
    · simpa [Bind.bind, Except.bind] using hwr
    · rw [p1, hw]
    · rw [p2, hh]
    · rw [p3, hnc]
  · exact ⟨r, rfl, hw, hh, hnc⟩

theorem nebula_step_Q (base : nc_state) (sq : ℚ → ℚ) (w h : Nat)
    (p : rng × rng × rasterizer) (n : Nat) (hQ : bgP base w h p.2.2) :
    ∃ p2, nebula_step sq w h p n = .ok p2 ∧ bgP base w h p2.2.2 := by
  unfold nebula_step unif_nat unif_real rng.next
  dsimp only
  have hfold :
      ∃ r2, foldE
        (fun r2 y => foldE
          (fun r3 x => nebula_pixel sq (p.2.1.seq p.2.1.pos % (w - 1 + 1))
            (p.2.1.seq (p.2.1.pos + 1) % (h - 1 + 1)) (50 + p.1.seq p.1.pos % 100)
            (1/5 + (3/5 - 1/5) * ((p.2.1.seq (p.2.1.pos + 2) % 1000 : Nat) : ℚ) / 1000)
            (1/5 + (3/5 - 1/5) * ((p.2.1.seq (p.2.1.pos + 3) % 1000 : Nat) : ℚ) / 1000)
            (1/5 + (3/5 - 1/5) * ((p.2.1.seq (p.2.1.pos + 4) % 1000 : Nat) : ℚ) / 1000)
            x y r3)
          (List.range w) r2)
        (List.range h) p.2.2 = .ok r2 ∧ bgP base w h r2 := by
    refine foldE_ok_inv (bgP base w h) _ _ p.2.2 hQ ?_
    intro r2 y hy hQ2
    refine foldE_ok_inv (bgP base w h) _ _ r2 hQ2 ?_
    intro r3 x hx hQ3
    exact nebula_pixel_Q base sq w h _ _ _ _ _ _ x y r3
      (List.mem_range.mp hx) (List.mem_range.mp hy) hQ3
  obtain ⟨r2, hfe, hQ2⟩ := hfold
  rw [hfe]
  exact ⟨_, rfl, hQ2⟩

theorem nebula_pass_Q (base : nc_state) (sq : ℚ → ℚ) (w h nneb : Nat)
    (rd g : rng) (r : rasterizer) (hQ : bgP base w h r) :
    ∃ p2, nebula_pass sq w h nneb rd g r = .ok p2 ∧ bgP base w h p2.2.2 := by
  unfold nebula_pass
  exact foldE_ok_inv (fun p : rng × rng × rasterizer => bgP base w h p.2.2)
    (nebula_step sq w h) (List.range nneb) (rd, g, r) hQ
    (fun p2 a _ h2 => nebula_step_Q base sq w h p2 a h2)

theorem background_Q (base : nc_state) (sq : ℚ → ℚ) (w h : Nat)
    (rd g : rng) (r : rasterizer) (hQ : bgP base w h r) :
    ∃ out, background sq w h rd g r = .ok out ∧ bgP base w h out.2.2 := by
  unfold background
  obtain ⟨p1, hs, hQ1⟩ := starfield_Q base sq w h g r hQ
  rw [hs]
  simp only [Bind.bind, Except.bind, rng.next]
  obtain ⟨p2, hn, hQ2⟩ := nebula_pass_Q base sq w h _ _ _ _ hQ1
  rw [hn]
  exact ⟨p2, rfl, hQ2⟩

/-- C7: every item(x, y) access performed by the starfield and nebula
passes of render lies within the render target's dimensions, so the
OutOfBounds failure branch of item is unreachable during those passes:
on a render target of the pass dimensions the background completes
without error. -/
theorem background_accesses_in_bounds (sq : ℚ → ℚ) (w h : Nat) (rd g : rng)
    (r : rasterizer) (hw : r.render_target.width = w)
    (hh : r.render_target.height = h) :
    background sq w h rd g r ≠ .error .outOfBounds ∧
    ∃ out, background sq w h rd g r = .ok out := by
  obtain ⟨out, hok, _⟩ := background_Q (nc_view r) sq w h rd g r ⟨hw, hh, rfl⟩
  refine ⟨?_, out, hok⟩
  rw [hok]
  simp

/-- Witness for background_accesses_in_bounds on the concrete 4 by 3
target produced by init. -/
theorem background_accesses_in_bounds_witness :
    (r_of cfg_small).render_target.width = 4 ∧
    (r_of cfg_small).render_target.height = 3 ∧
    (background sqrt0 4 3 ⟨rd0, 1⟩ ⟨mt0 0, 0⟩ (r_of cfg_small) ≠
        .error .outOfBounds ∧
      ∃ out, background sqrt0 4 3 ⟨rd0, 1⟩ ⟨mt0 0, 0⟩ (r_of cfg_small) = .ok out) :=
  ⟨by decide, by decide,
    background_accesses_in_bounds sqrt0 4 3 ⟨rd0, 1⟩ ⟨mt0 0, 0⟩ (r_of cfg_small)
      (by decide) (by decide)⟩

/-- C6: the pre-fill background work of render — the clear_render_target
call and the starfield and nebula passes, everything from the clear up to
the first draw call — writes only to the color buffer: the depth buffer,
the viewport, the geometry bindings and the shader bindings are all
unchanged. -/
theorem pre_draw_only_color (sq : ℚ → ℚ) (mt : Nat → Nat → Nat)
    (rd_seq : Nat → Nat) (cfg : config) (r : rasterizer)
    (hw : r.render_target.width = cfg.width)
    (hh : r.render_target.height = cfg.height) :
    ∃ out, pre_draw sq mt rd_seq cfg r = .ok out ∧
      out.2.2.depth_buffer = r.depth_buffer ∧
      out.2.2.viewport_width = r.viewport_width ∧
      out.2.2.viewport_height = r.viewport_height ∧
      out.2.2.vertex_buffer = r.vertex_buffer ∧
      out.2.2.index_buffer = r.index_buffer ∧
      out.2.2.vertex_shader = r.vertex_shader ∧
      out.2.2.pixel_shader = r.pixel_shader := by
  unfold pre_draw
  obtain ⟨out, hok, hQ⟩ := background_Q (nc_view r) sq cfg.width cfg.height
    ⟨rd_seq, 1⟩ ⟨mt (rd_seq 0), 0⟩ (clear_render_target r ⟨5, 5, 20⟩)
    ⟨hw, hh, rfl⟩
  exact ⟨out, hok, congrArg nc_state.depth hQ.2.2, congrArg nc_state.vw hQ.2.2,
    congrArg nc_state.vh hQ.2.2, congrArg nc_state.vb hQ.2.2,
    congrArg nc_state.ib hQ.2.2, congrArg nc_state.vs hQ.2.2,
    congrArg nc_state.ps hQ.2.2⟩

/-- Witness for pre_draw_only_color on the concrete 4 by 3 state produced
by init. -/
theorem pre_draw_only_color_witness :
    (r_of cfg_small).render_target.width = cfg_small.width ∧
    (r_of cfg_small).render_target.height = cfg_small.height ∧
    ∃ out, pre_draw sqrt0 mt0 rd0 cfg_small (r_of cfg_small) = .ok out ∧
      out.2.2.depth_buffer = (r_of cfg_small).depth_buffer ∧
      out.2.2.viewport_width = (r_of cfg_small).viewport_width ∧
      out.2.2.viewport_height = (r_of cfg_small).viewport_height ∧
      out.2.2.vertex_buffer = (r_of cfg_small).vertex_buffer ∧
      out.2.2.index_buffer = (r_of cfg_small).index_buffer ∧
      out.2.2.vertex_shader = (r_of cfg_small).vertex_shader ∧
      out.2.2.pixel_shader = (r_of cfg_small).pixel_shader :=
  ⟨by decide, by decide,
    pre_draw_only_color sqrt0 mt0 rd0 cfg_small (r_of cfg_small)
      (by decide) (by decide)⟩

theorem shape_loop_trace (cfg : config) (l : List Nat) :
    ∀ (r : rasterizer) (acc : List event) (rE : rasterizer) (evs : List event),
    foldE (shape_step cfg) l (r, acc) = .ok (rE, evs) →
    evs = acc ++ l.flatMap (fun i => [event.set_vb i, event.set_ib i,
      event.draw_call i (cfg.index_buffers.getD i []).length]) := by
  induction l with
  | nil =>
    intro r acc rE evs h
    simp only [foldE, Except.ok.injEq, Prod.mk.injEq] at h
    rw [← h.2]
    simp
  | cons a l ih =>
    intro r acc rE evs h
    simp only [foldE] at h
    cases hstep : shape_step cfg (r, acc) a with
    | error e => rw [hstep] at h; cases h
    | ok pr =>
      rw [hstep] at h
      unfold shape_step at hstep
      dsimp only at hstep
      cases hd : draw (set_index_buffer (set_vertex_buffer r
          (cfg.vertex_buffers.getD a [])) (cfg.index_buffers.getD a []))
          (cfg.index_buffers.getD a []).length 0 with
      | error e =>
        rw [hd] at hstep
        simp [Bind.bind, Except.bind] at hstep
      | ok r3 =>
        rw [hd] at hstep
        simp only [Bind.bind, Except.bind, Except.ok.injEq] at hstep
        subst hstep
        have := ih r3 (acc ++ [event.set_vb a, event.set_ib a,
          event.draw_call a (cfg.index_buffers.getD a []).length]) rE evs h
        rw [this]
        simp

theorem render_trace_structure (sq : ℚ → ℚ) (mt : Nat → Nat → Nat)
    (rd_seq : Nat → Nat) (cfg : config) (r0 : rasterizer)
    (hok : ok_b (render sq mt rd_seq cfg r0) = true) :
    trace_of (render sq mt rd_seq cfg r0) =
      event.clear_rt :: ((List.range cfg.index_buffers.length).flatMap
        (fun i => [event.set_vb i, event.set_ib i,
          event.draw_call i (cfg.index_buffers.getD i []).length]) ++
        [event.save]) := by
  unfold render at hok ⊢
  dsimp only at hok ⊢
  simp only [Bind.bind, Except.bind] at hok ⊢
  cases hpd : pre_draw sq mt rd_seq cfg (bind_shaders cfg r0) with
  | error e =>
    rw [hpd] at hok
    simp [ok_b] at hok
  | ok p =>
    rw [hpd] at hok
    obtain ⟨ga, gb, rD⟩ := p
    dsimp only at hok ⊢
    cases hsl : foldE (shape_step cfg) (List.range cfg.index_buffers.length)
        (rD, []) with
    | error e =>
      rw [hsl] at hok
      simp [ok_b] at hok
    | ok q =>
      obtain ⟨rE, evs⟩ := q
      dsimp only
      have := shape_loop_trace cfg (List.range cfg.index_buffers.length)
        rD [] rE evs hsl
      simp only [trace_of]
      rw [this]
      simp

/-- C8: render processes every mesh shape of the model exactly once in
increasing shape-index order: the engine-operation trace of a successful
render is exactly the clear, then for each shape index i in increasing
order that shape's vertex-buffer bind, index-buffer bind and draw call
with the shape's index count, and finally the single save of the color
buffer — so the buffer is persisted only after the draw call of the last
shape has completed. -/
theorem render_shape_order (sq : ℚ → ℚ) (mt : Nat → Nat → Nat)
    (rd_seq : Nat → Nat) (cfg : config) (r0 : rasterizer)
    (hok : ok_b (render sq mt rd_seq cfg r0) = true) :
    trace_of (render sq mt rd_seq cfg r0) =
      event.clear_rt :: ((List.range cfg.index_buffers.length).flatMap
        (fun i => [event.set_vb i, event.set_ib i,
          event.draw_call i (cfg.index_buffers.getD i []).length]) ++
        [event.save]) :=
  render_trace_structure sq mt rd_seq cfg r0 hok

/-- Witness for render_shape_order on the concrete one-shape scene. -/
theorem render_shape_order_witness :
    ok_b (render sqrt0 mt0 rd0 cfg_one (r_of cfg_one)) = true ∧
    trace_of (render sqrt0 mt0 rd0 cfg_one (r_of cfg_one)) =
      event.clear_rt :: ((List.range cfg_one.index_buffers.length).flatMap
        (fun i => [event.set_vb i, event.set_ib i,
          event.draw_call i (cfg_one.index_buffers.getD i []).length]) ++
        [event.save]) :=
  ⟨by decide,
    render_shape_order sqrt0 mt0 rd0 cfg_one (r_of cfg_one) (by decide)⟩

/-- C1 counterexample: at the concrete one-shape scene the trace of
render contains no depth-clear call before the first draw (indeed none at
all), so the claim as stated is false. -/
theorem clear_depth_missing_counterexample :
    ¬ claimed_clear_both_before_draw sqrt0 mt0 rd0 cfg_one (r_of cfg_one) := by
  unfold claimed_clear_both_before_draw
  decide

/-- C1 (amended): before the first draw call render has invoked
clear_render_target on the color buffer, but no separate depth-clear call
is made — no depth-clear occurs anywhere in the trace, so the depth
buffer retains the contents it had when render started. -/
theorem clear_rt_before_draw_no_depth_clear (sq : ℚ → ℚ)
    (mt : Nat → Nat → Nat) (rd_seq : Nat → Nat) (cfg : config)
    (r0 : rasterizer) (hok : ok_b (render sq mt rd_seq cfg r0) = true) :
    event.clear_rt ∈ before_first_draw (trace_of (render sq mt rd_seq cfg r0)) ∧
    event.clear_depth ∉ trace_of (render sq mt rd_seq cfg r0) := by
  have ht := render_trace_structure sq mt rd_seq cfg r0 hok
  rw [ht]
  constructor
  · simp [before_first_draw, List.takeWhile, is_draw]
  · intro hmem
    simp at hmem

/-- Witness for clear_rt_before_draw_no_depth_clear on the concrete
one-shape scene. -/
theorem clear_rt_before_draw_no_depth_clear_witness :
    ok_b (render sqrt0 mt0 rd0 cfg_one (r_of cfg_one)) = true ∧
    (event.clear_rt ∈
        before_first_draw (trace_of (render sqrt0 mt0 rd0 cfg_one (r_of cfg_one))) ∧
      event.clear_depth ∉ trace_of (render sqrt0 mt0 rd0 cfg_one (r_of cfg_one))) :=
  ⟨by decide,
    clear_rt_before_draw_no_depth_clear sqrt0 mt0 rd0 cfg_one (r_of cfg_one)
      (by decide)⟩

/-- C2 counterexample: with the empty model on an 8 by 5 screen, two
executions whose random-device streams differ only in the reading that
sets the nebula count produce different final color buffers, so the claim
as stated is false. -/
theorem render_nondeterministic_counterexample :
    ¬ claimed_render_deterministic sqrt0 mt0 cfg_empty (r_of cfg_empty) := by
  intro hcl
  exact absurd (hcl rd0 rd1) (by decide)

/-- C2 (amended): the pipeline is deterministic once the entropy source is
fixed — for a fixed input (model, camera matrices, settings, engine
state) and pointwise-equal random-device streams, two executions of
render produce identical outcomes, in particular the identical final
color buffer; the code seeds its generator from std::random_device, so
only executions with equal entropy readings are guaranteed to agree. -/
theorem render_deterministic_fixed_entropy (sq : ℚ → ℚ)
    (mt : Nat → Nat → Nat) (cfg : config) (r0 : rasterizer)
    (rda rdb : Nat → Nat) (hagree : ∀ k, rda k = rdb k) :
    render sq mt rda cfg r0 = render sq mt rdb cfg r0 ∧
    saved_of (render sq mt rda cfg r0) = saved_of (render sq mt rdb cfg r0) := by
  have h : rda = rdb := funext hagree
  subst h
  exact ⟨rfl, rfl⟩

/-- Witness for render_deterministic_fixed_entropy at the concrete empty
scene with equal streams. -/
theorem render_deterministic_fixed_entropy_witness :
    (∀ k, rd0 k = rd0 k) ∧
    (render sqrt0 mt0 rd0 cfg_empty (r_of cfg_empty) =
        render sqrt0 mt0 rd0 cfg_empty (r_of cfg_empty) ∧
      saved_of (render sqrt0 mt0 rd0 cfg_empty (r_of cfg_empty)) =
        saved_of (render sqrt0 mt0 rd0 cfg_empty (r_of cfg_empty))) :=
  ⟨fun _ => rfl,
    render_deterministic_fixed_entropy sqrt0 mt0 cfg_empty (r_of cfg_empty)
      rd0 rd0 (fun _ => rfl)⟩

end CGGD
